import Mathlib

/-!
Shallow embedding of the frame-orchestration core of the
spaghettifunk/alaska-engine repository: the renderer package
(`engine/renderer/renderer.go`) and the render-view metadata declarations
(clear flags, render packets, render views).

Conventions of the embedding:
* Go machine integers (`uint8`, `uint16`, `uint32`, `uint64`) only flow
  through this code unchanged - no arithmetic is performed on them - so
  they are modelled as `Nat`.
* A Go `error` value is `Option String`: `none` is the nil error.
* Go pointers to external resources are modelled as handles (ids);
  the `View *RenderView` back-pointer of a packet is the numeric view id.
* A nil-pointer dereference is an explicit `Outcome.nilPanic`, never a
  returned error.
* Calls that cross the backend or view-callback boundary are recorded as
  an event trace, so that call counts and call order can be stated.
-/

namespace Alaska

/-- A Go error result: `none` is the nil error (success). -/
abbrev GoErr := Option String

/-- Opaque handle for `*platform.Platform` (external windowing glue). -/
structure Platform where
  id : Nat
deriving DecidableEq

/-- External value type `math.Vec3`. -/
structure Vec3 where
  x : Float
  y : Float
  z : Float

/-- External value type `math.Vec4`. -/
structure Vec4 where
  x : Float
  y : Float
  z : Float
  w : Float

/-- External value type `math.Mat4` (four rows). -/
structure Mat4 where
  rows : Vec4 × Vec4 × Vec4 × Vec4

/-- Opaque handle for `*resources.Texture`. -/
structure Texture where
  id : Nat
deriving DecidableEq

/-- Opaque handle for `*resources.Geometry`. -/
structure Geometry where
  id : Nat
deriving DecidableEq

/-- Opaque stand-in for a Go interface value payload (`ExtendedData`,
`InternalData`); its concrete shape is irrelevant to this core. -/
structure OpaqueData where
  tag : Nat
deriving DecidableEq

namespace Metadata

/-- Go: `type RenderpassClearFlag uint32`. -/
abbrev RenderpassClearFlag := Nat

/-- Go: `RENDERPASS_CLEAR_NONE_FLAG RenderpassClearFlag = 0x0`. -/
def RENDERPASS_CLEAR_NONE_FLAG : RenderpassClearFlag := 0x0

/-- Go: `RENDERPASS_CLEAR_COLOUR_BUFFER_FLAG RenderpassClearFlag = 0x1`. -/
def RENDERPASS_CLEAR_COLOUR_BUFFER_FLAG : RenderpassClearFlag := 0x1

/-- Go: `RENDERPASS_CLEAR_DEPTH_BUFFER_FLAG RenderpassClearFlag = 0x2`. -/
def RENDERPASS_CLEAR_DEPTH_BUFFER_FLAG : RenderpassClearFlag := 0x2

/-- Go: `RENDERPASS_CLEAR_STENCIL_BUFFER_FLAG RenderpassClearFlag = 0x3`. -/
def RENDERPASS_CLEAR_STENCIL_BUFFER_FLAG : RenderpassClearFlag := 0x3

/-- Go struct `RenderTarget`. -/
structure RenderTarget where
  SyncToWindowSize : Bool
  AttachmentCount : Nat
  Attachments : List Texture
  InternalFramebuffer : Option OpaqueData

/-- Go struct `RenderPass` (`Targets *RenderTarget` is a single pointer
in the source, modelled as an optional value). -/
structure RenderPass where
  ID : Nat
  RenderArea : Vec4
  ClearColour : Vec4
  ClearFlags : Nat
  RenderTargetCount : Nat
  Targets : Option RenderTarget
  InternalData : Option OpaqueData

/-- Go: `type RenderViewKnownType int`. -/
abbrev RenderViewKnownType := Nat

/-- Go: `RENDERER_VIEW_KNOWN_TYPE_WORLD RenderViewKnownType = 0x01`. -/
def RENDERER_VIEW_KNOWN_TYPE_WORLD : RenderViewKnownType := 0x01

/-- Go: `RENDERER_VIEW_KNOWN_TYPE_UI RenderViewKnownType = 0x02`. -/
def RENDERER_VIEW_KNOWN_TYPE_UI : RenderViewKnownType := 0x02

/-- Go: `RENDERER_VIEW_KNOWN_TYPE_SKYBOX RenderViewKnownType = 0x03`. -/
def RENDERER_VIEW_KNOWN_TYPE_SKYBOX : RenderViewKnownType := 0x03

/-- Go struct `GeometryRenderData`. -/
structure GeometryRenderData where
  Model : Mat4
  Geometry : Geometry

/-- Go struct `RenderViewPacket`; the back-pointer `View *RenderView` is
modelled as the numeric id of the referenced view (a non-owning
reference), which breaks the pointer cycle between packet and view. -/
structure RenderViewPacket where
  View : Nat
  ViewMatrix : Mat4
  ProjectionMatrix : Mat4
  ViewPosition : Vec3
  AmbientColour : Vec4
  GeometryCount : Nat
  Geometries : Option GeometryRenderData
  CustomShadername : String
  ExtendedData : Option OpaqueData

/-- Go: `type OnCreateRenderView func() bool`. -/
abbrev OnCreateRenderView := Unit → Bool

/-- Go: `type OnDestroyRenderView func() error`. -/
abbrev OnDestroyRenderView := Unit → GoErr

/-- Go: `type OnResizeRenderView func(width, height uint32)`. -/
abbrev OnResizeRenderView := Nat → Nat → Unit

/-- Go: `type OnBuildPacketRenderView func(data interface) (*RenderViewPacket, error)`. -/
abbrev OnBuildPacketRenderView := Option OpaqueData → Option RenderViewPacket × GoErr

/-- Go: `type OnDestroyPacketRenderView func(packet *RenderViewPacket)`. -/
abbrev OnDestroyPacketRenderView := RenderViewPacket → Unit

/-- Go: `type OnRenderRenderView func(packet *RenderViewPacket, frame_number, render_target_index uint64) bool`. -/
abbrev OnRenderRenderView := RenderViewPacket → Nat → Nat → Bool

/-- Go struct `RenderView` with its callback-function fields. -/
structure RenderView where
  ID : Nat
  Name : String
  Width : Nat
  Height : Nat
  RenderViewType : RenderViewKnownType
  RenderpassCount : Nat
  Passes : List RenderPass
  CustomShaderName : String
  InternalData : Option OpaqueData
  OnCreate : OnCreateRenderView
  OnDestroy : OnDestroyRenderView
  OnResize : OnResizeRenderView
  OnBuildPacket : OnBuildPacketRenderView
  OnDestroyPacket : OnDestroyPacketRenderView
  OnRender : OnRenderRenderView

/-- Go struct `RenderPacket` of the metadata file: delta time plus the
collection of views to be rendered. -/
structure RenderPacket where
  DeltaTime : Float
  ViewCount : Nat
  Views : List RenderViewPacket

/-- Go struct `MemoryRange`. -/
structure MemoryRange where
  Offset : Nat
  Size : Nat
deriving DecidableEq

end Metadata

namespace Renderer

/-- The Go interface `RendererBackend`, modelled as a record of result
behaviours: each field gives the error value the backend returns for the
corresponding method call (the renderer-side semantics below records the
calls themselves in an event trace). -/
structure RendererBackend where
  initializeRes : String → GoErr
  shutdowRes : GoErr
  resizedRes : Nat → Nat → GoErr
  beginFrameRes : Float → GoErr
  endFrameRes : Float → GoErr

/-- Go: `type RendererType uint8`. -/
abbrev RendererType := Nat

/-- Go: `Vulkan RendererType = iota` (0). -/
def Vulkan : RendererType := 0

/-- Go: `DirectX` (1). -/
def DirectX : RendererType := 1

/-- Go: `Metal` (2). -/
def Metal : RendererType := 2

/-- Go: `OpenGL` (3). -/
def OpenGL : RendererType := 3

/-- Go struct `Renderer`: it owns nothing but the backend. -/
structure Renderer where
  backend : RendererBackend

/-- Go struct `RenderPacket` of the renderer package: its only field is
the delta time - it carries no views. -/
structure RenderPacket where
  DeltaTime : Float

/-- The package-level mutable state of the renderer package:
`var initRenderer sync.Once` (has its body run) and
`var renderer *Renderer` (nil until constructed). -/
structure PkgState where
  onceDone : Bool
  renderer : Option Renderer

/-- Go zero values of the package variables: the once has not run and the
renderer pointer is nil. -/
def initialPkgState : PkgState := ⟨false, none⟩

/-- One observable call at the backend or view-callback boundary. The
last two constructors exist so that claims about view callbacks can be
stated; the renderer code never emits them. -/
inductive REvent where
  | vkNew (platId : Nat)
  | beInit (appName : String)
  | beShutdow
  | beResized (width height : Nat)
  | beBeginFrame (dt : Float)
  | beEndFrame (dt : Float)
  | viewOnResize (viewId width height : Nat)
  | viewOnRender (viewId : Nat)

/-- Result of a renderer-package call: a returned Go error value, or a
runtime panic from dereferencing the nil renderer pointer. -/
inductive Outcome (α : Type) where
  | ok (val : α)
  | nilPanic
deriving DecidableEq

/-- Go `func Initialize(appName string, platform *platform.Platform) error`:
`initRenderer.Do` constructs the singleton renderer around `vulkan.New
(platform)` iff the once has not run yet, then the function returns
`renderer.backend.Initialize(appName)` - on every call. `vulkanNew`
stands for the external constructor `vulkan.New`; a `vkNew` event records
each construction and a `beInit` event each backend initialize call. -/
def Initialize (vulkanNew : Platform → RendererBackend) (appName : String)
    (plat : Platform) (s : PkgState) : PkgState × Outcome GoErr × List REvent :=
  let sd :=
    if s.onceDone then (s, ([] : List REvent))
    else (⟨true, some ⟨vulkanNew plat⟩⟩, [REvent.vkNew plat.id])
  match sd.1.renderer with
  | none => (sd.1, Outcome.nilPanic, sd.2)
  | some r =>
      (sd.1, Outcome.ok (r.backend.initializeRes appName), sd.2 ++ [REvent.beInit appName])

/-- Go `func Shutdown() error`: returns `renderer.backend.Shutdow()`;
panics when the renderer pointer is still nil. -/
def Shutdown (s : PkgState) : PkgState × Outcome GoErr × List REvent :=
  match s.renderer with
  | none => (s, Outcome.nilPanic, [])
  | some r => (s, Outcome.ok r.backend.shutdowRes, [REvent.beShutdow])

/-- Go `func BeginFrame(deltaTime float64) error`: returns
`renderer.backend.BeginFrame(deltaTime)`; panics on a nil renderer. -/
def BeginFrame (s : PkgState) (deltaTime : Float) :
    PkgState × Outcome GoErr × List REvent :=
  match s.renderer with
  | none => (s, Outcome.nilPanic, [])
  | some r => (s, Outcome.ok (r.backend.beginFrameRes deltaTime), [REvent.beBeginFrame deltaTime])

/-- Go `func EndFrame(deltaTime float64) error`: returns
`renderer.backend.EndFrame(deltaTime)`; panics on a nil renderer. -/
def EndFrame (s : PkgState) (deltaTime : Float) :
    PkgState × Outcome GoErr × List REvent :=
  match s.renderer with
  | none => (s, Outcome.nilPanic, [])
  | some r => (s, Outcome.ok (r.backend.endFrameRes deltaTime), [REvent.beEndFrame deltaTime])

/-- Go `func OnResize(width, height uint16) error`: returns
`renderer.backend.Resized(width, height)`; panics on a nil renderer. -/
def OnResize (s : PkgState) (width height : Nat) :
    PkgState × Outcome GoErr × List REvent :=
  match s.renderer with
  | none => (s, Outcome.nilPanic, [])
  | some r => (s, Outcome.ok (r.backend.resizedRes width height), [REvent.beResized width height])

/-- Go `func DrawFrame(renderPacket *RenderPacket) error`: calls the
package `BeginFrame` with the packet delta time and returns its error if
non-nil (without calling `EndFrame`); otherwise calls the package
`EndFrame` and returns its result. No other work is done. -/
def DrawFrame (s : PkgState) (renderPacket : RenderPacket) :
    PkgState × Outcome GoErr × List REvent :=
  match BeginFrame s renderPacket.DeltaTime with
  | (s1, Outcome.nilPanic, tr) => (s1, Outcome.nilPanic, tr)
  | (s1, Outcome.ok (some err), tr) => (s1, Outcome.ok (some err), tr)
  | (s1, Outcome.ok none, tr) =>
      match EndFrame s1 renderPacket.DeltaTime with
      | (s2, Outcome.nilPanic, tr2) => (s2, Outcome.nilPanic, tr ++ tr2)
      | (s2, Outcome.ok e2, tr2) => (s2, Outcome.ok e2, tr ++ tr2)

/-- Is the event a backend-construction (`vulkan.New`) call. -/
def isVkNew : REvent → Bool
  | REvent.vkNew _ => true
  | _ => false

/-- Is the event a backend `Initialize` call. -/
def isBeInit : REvent → Bool
  | REvent.beInit _ => true
  | _ => false

/-- Is the event a backend `Shutdow` call. -/
def isBeShutdow : REvent → Bool
  | REvent.beShutdow => true
  | _ => false

/-- Is the event a backend `Resized` call. -/
def isBeResized : REvent → Bool
  | REvent.beResized _ _ => true
  | _ => false

/-- Is the event a backend `BeginFrame` call. -/
def isBeBeginFrame : REvent → Bool
  | REvent.beBeginFrame _ => true
  | _ => false

/-- Is the event a backend `EndFrame` call. -/
def isBeEndFrame : REvent → Bool
  | REvent.beEndFrame _ => true
  | _ => false

/-- Is the event an invocation of some view OnResize callback. -/
def isViewOnResize : REvent → Bool
  | REvent.viewOnResize _ _ _ => true
  | _ => false

/-- Is the event an invocation of some view OnRender callback. -/
def isViewOnRender : REvent → Bool
  | REvent.viewOnRender _ => true
  | _ => false

/-- Number of backend-construction calls in a trace. -/
def countVkNew (tr : List REvent) : Nat := (tr.filter isVkNew).length

/-- Number of backend `Initialize` calls in a trace. -/
def countBeInit (tr : List REvent) : Nat := (tr.filter isBeInit).length

/-- Number of backend `Shutdow` calls in a trace. -/
def countBeShutdow (tr : List REvent) : Nat := (tr.filter isBeShutdow).length

/-- Number of backend `Resized` calls in a trace. -/
def countBeResized (tr : List REvent) : Nat := (tr.filter isBeResized).length

/-- Number of backend `BeginFrame` calls in a trace. -/
def countBeBeginFrame (tr : List REvent) : Nat := (tr.filter isBeBeginFrame).length

/-- Number of backend `EndFrame` calls in a trace. -/
def countBeEndFrame (tr : List REvent) : Nat := (tr.filter isBeEndFrame).length

/-- Number of view OnResize invocations in a trace. -/
def countViewOnResize (tr : List REvent) : Nat := (tr.filter isViewOnResize).length

/-- Number of view OnRender invocations in a trace. -/
def countViewOnRender (tr : List REvent) : Nat := (tr.filter isViewOnRender).length

/-- One call into the renderer package, for sequential call scripts. -/
inductive RCall where
  | rInit (appName : String) (plat : Platform)
  | rShutdown
  | rBeginFrame (dt : Float)
  | rEndFrame (dt : Float)
  | rOnResize (width height : Nat)
  | rDrawFrame (p : RenderPacket)

/-- Run one package call against the current package state. -/
def runCall (vulkanNew : Platform → RendererBackend) (s : PkgState) :
    RCall → PkgState × Outcome GoErr × List REvent
  | RCall.rInit app plat => Initialize vulkanNew app plat s
  | RCall.rShutdown => Shutdown s
  | RCall.rBeginFrame dt => BeginFrame s dt
  | RCall.rEndFrame dt => EndFrame s dt
  | RCall.rOnResize w h => OnResize s w h
  | RCall.rDrawFrame p => DrawFrame s p

/-- Run a sequence of package calls, collecting every call result and the
concatenated backend-boundary trace. -/
def runCalls (vulkanNew : Platform → RendererBackend) (s : PkgState) :
    List RCall → PkgState × List (Outcome GoErr) × List REvent
  | [] => (s, [], [])
  | c :: cs =>
      let r1 := runCall vulkanNew s c
      let rs := runCalls vulkanNew r1.1 cs
      (rs.1, r1.2.1 :: rs.2.1, r1.2.2 ++ rs.2.2)

/-- A backend whose every call succeeds (returns the nil error). -/
def okBackend : RendererBackend :=
  { initializeRes := fun _ => none
    shutdowRes := none
    resizedRes := fun _ _ => none
    beginFrameRes := fun _ => none
    endFrameRes := fun _ => none }

/-- A backend whose `BeginFrame` fails and everything else succeeds. -/
def beginFailBackend : RendererBackend :=
  { okBackend with beginFrameRes := fun _ => some "begin failed" }

/-- A backend whose `EndFrame` fails and everything else succeeds. -/
def endFailBackend : RendererBackend :=
  { okBackend with endFrameRes := fun _ => some "end failed" }

/-- A backend whose `Initialize` fails and everything else succeeds. -/
def initFailBackend : RendererBackend :=
  { okBackend with initializeRes := fun _ => some "backend init failed" }

/-- A `vulkan.New` behaviour that yields the all-succeeding backend for
any platform. -/
def vnewOk : Platform → RendererBackend := fun _ => okBackend

/-- Package state after a completed construction of the all-succeeding
backend: the once has run and the singleton is set. -/
def okState : PkgState := ⟨true, some ⟨okBackend⟩⟩

end Renderer

namespace OnceModel

/-- Program counter of one goroutine executing the body of the Go
`Initialize` function: before the `initRenderer.Do` call, between `Do`
and the `renderer.backend.Initialize` call, and returned. -/
inductive ThreadPC where
  | beforeDo
  | afterDo
  | finished
deriving DecidableEq

/-- Shared state of the concurrent first-initialization model:
the `sync.Once` completion flag, how many times the `Do` body (backend
construction plus singleton store) has executed, which constructed
instance (numbered from 1) the `renderer` pointer holds, and every
goroutine program counter. -/
structure ConcState where
  onceDone : Bool
  constructs : Nat
  rendererInst : Option Nat
  pcs : List ThreadPC
deriving DecidableEq

/-- Start state for `n` goroutines that all call `Initialize`: the once
has not run, nothing is constructed, the renderer pointer is nil. -/
def initConc (n : Nat) : ConcState := ⟨false, 0, none, List.replicate n ThreadPC.beforeDo⟩

/-- One scheduler step: goroutine `tid` executes its next instruction.
`sync.Once.Do` is modelled atomically, which is its documented contract:
the body runs iff no completed or in-progress run exists, and a caller
returns from `Do` only once the body has completed (so a goroutine at
`afterDo` always observes the fully stored singleton). A goroutine at
`afterDo` performs the backend `Initialize` call and returns. -/
def concStep (s : ConcState) (tid : Nat) : ConcState :=
  match s.pcs[tid]? with
  | some ThreadPC.beforeDo =>
      if s.onceDone then { s with pcs := s.pcs.set tid ThreadPC.afterDo }
      else
        { onceDone := true
          constructs := s.constructs + 1
          rendererInst := some (s.constructs + 1)
          pcs := s.pcs.set tid ThreadPC.afterDo }
  | some ThreadPC.afterDo => { s with pcs := s.pcs.set tid ThreadPC.finished }
  | _ => s

/-- Run a whole schedule (a list of goroutine ids, arbitrary
interleaving) from the `n`-goroutine start state. -/
def concRun (n : Nat) (sched : List Nat) : ConcState :=
  sched.foldl concStep (initConc n)

/-- The safety invariant of the model: at most one construction ever;
the once flag is equivalent to exactly one construction with the
singleton holding instance 1; before the once has run nothing is
constructed and the pointer is nil; any goroutine past `Do` implies the
once has run. -/
def concInv (s : ConcState) : Prop :=
  s.constructs ≤ 1
  ∧ (s.onceDone ↔ s.constructs = 1 ∧ s.rendererInst = some 1)
  ∧ (¬ s.onceDone → s.constructs = 0 ∧ s.rendererInst = none)
  ∧ (∀ pc ∈ s.pcs, pc ≠ ThreadPC.beforeDo → s.onceDone = true)

end OnceModel

namespace Renderer

/-- Submission of an application-built metadata render packet through the
renderer package: `DrawFrame` accepts only the renderer-package
`RenderPacket`, whose sole field is the delta time, so of a metadata
packet only the delta time can be passed on - its views cannot reach
`DrawFrame` at all. -/
def submitPacket (s : PkgState) (mp : Metadata.RenderPacket) :
    PkgState × Outcome GoErr × List REvent :=
  DrawFrame s ⟨mp.DeltaTime⟩

/-- A concrete per-view packet referencing view 1, with identity matrices
and no geometry. -/
def theViewPacket : Metadata.RenderViewPacket :=
  { View := 1
    ViewMatrix := ⟨(⟨1, 0, 0, 0⟩, ⟨0, 1, 0, 0⟩, ⟨0, 0, 1, 0⟩, ⟨0, 0, 0, 1⟩)⟩
    ProjectionMatrix := ⟨(⟨1, 0, 0, 0⟩, ⟨0, 1, 0, 0⟩, ⟨0, 0, 1, 0⟩, ⟨0, 0, 0, 1⟩)⟩
    ViewPosition := ⟨0, 0, 0⟩
    AmbientColour := ⟨1, 1, 1, 1⟩
    GeometryCount := 0
    Geometries := none
    CustomShadername := ""
    ExtendedData := none }

/-- A metadata render packet carrying exactly one view to be rendered. -/
def oneViewPacket : Metadata.RenderPacket :=
  { DeltaTime := 1.0, ViewCount := 1, Views := [theViewPacket] }

/-- A concrete render view (id 1, world type) with trivial callbacks,
standing for one active view in claims that speak of active views. -/
def aWorldView : Metadata.RenderView :=
  { ID := 1
    Name := "world"
    Width := 1280
    Height := 720
    RenderViewType := Metadata.RENDERER_VIEW_KNOWN_TYPE_WORLD
    RenderpassCount := 0
    Passes := []
    CustomShaderName := ""
    InternalData := none
    OnCreate := fun _ => true
    OnDestroy := fun _ => none
    OnResize := fun _ _ => ()
    OnBuildPacket := fun _ => (none, none)
    OnDestroyPacket := fun _ => ()
    OnRender := fun _ _ _ => true }

end Renderer

end Alaska

namespace Alaska

open Renderer OnceModel

/-- C7: the code contradicts the claimed bitmask independence. The
stencil clear flag value (0x3) is exactly the OR of the colour (0x1) and
depth (0x2) flags, so the subset holding only stencil and the subset
holding colour and depth share one combined value; only the
none-is-zero part of the claim holds. -/
theorem C7_clear_flag_collision :
    Metadata.RENDERPASS_CLEAR_NONE_FLAG = 0
    ∧ Nat.lor Metadata.RENDERPASS_CLEAR_COLOUR_BUFFER_FLAG
        Metadata.RENDERPASS_CLEAR_DEPTH_BUFFER_FLAG
      = Metadata.RENDERPASS_CLEAR_STENCIL_BUFFER_FLAG := by
  constructor <;> decide

/-- C9: every frame-lifecycle entry point of the renderer package called
before the first Initialize finds the package-level singleton still nil
(its Go zero value), dereferences it and panics, rather than returning
an error value. -/
theorem C9_nil_renderer_panics (dt : Float) (w h : Nat) (p : RenderPacket) :
    Shutdown initialPkgState = (initialPkgState, Outcome.nilPanic, [])
    ∧ BeginFrame initialPkgState dt = (initialPkgState, Outcome.nilPanic, [])
    ∧ EndFrame initialPkgState dt = (initialPkgState, Outcome.nilPanic, [])
    ∧ OnResize initialPkgState w h = (initialPkgState, Outcome.nilPanic, [])
    ∧ DrawFrame initialPkgState p = (initialPkgState, Outcome.nilPanic, []) :=
  ⟨rfl, rfl, rfl, rfl, rfl⟩

/-- C3: if the backend BeginFrame returns an error, DrawFrame returns
exactly that error and the trace shows no EndFrame call at all; if
BeginFrame succeeds and the backend EndFrame returns an error, DrawFrame
returns that error and the trace shows exactly the one BeginFrame and
the one EndFrame call - no further frame work. -/
theorem C3_drawFrame_error_propagation (d : Bool) (b : RendererBackend)
    (p : RenderPacket) (e : String) :
    (b.beginFrameRes p.DeltaTime = some e →
      DrawFrame ⟨d, some ⟨b⟩⟩ p
        = (⟨d, some ⟨b⟩⟩, Outcome.ok (some e), [REvent.beBeginFrame p.DeltaTime])
      ∧ countBeEndFrame (DrawFrame ⟨d, some ⟨b⟩⟩ p).2.2 = 0)
    ∧ (b.beginFrameRes p.DeltaTime = none → b.endFrameRes p.DeltaTime = some e →
      DrawFrame ⟨d, some ⟨b⟩⟩ p
        = (⟨d, some ⟨b⟩⟩, Outcome.ok (some e),
            [REvent.beBeginFrame p.DeltaTime, REvent.beEndFrame p.DeltaTime])) := by
  constructor
  · intro hb
    have hd : DrawFrame ⟨d, some ⟨b⟩⟩ p
        = (⟨d, some ⟨b⟩⟩, Outcome.ok (some e), [REvent.beBeginFrame p.DeltaTime]) := by
      simp [DrawFrame, BeginFrame, hb]
    refine ⟨hd, ?_⟩
    rw [hd]
    rfl
  · intro hb he
    simp [DrawFrame, BeginFrame, EndFrame, hb, he]

/-- Witness for C3 at two concrete failing backends. -/
theorem C3_witness :
    (DrawFrame ⟨true, some ⟨beginFailBackend⟩⟩ ⟨1.0⟩
        = (⟨true, some ⟨beginFailBackend⟩⟩, Outcome.ok (some "begin failed"),
            [REvent.beBeginFrame 1.0]))
    ∧ (DrawFrame ⟨true, some ⟨endFailBackend⟩⟩ ⟨1.0⟩
        = (⟨true, some ⟨endFailBackend⟩⟩, Outcome.ok (some "end failed"),
            [REvent.beBeginFrame 1.0, REvent.beEndFrame 1.0])) :=
  ⟨((C3_drawFrame_error_propagation true beginFailBackend ⟨1.0⟩ "begin failed").1 rfl).1,
    (C3_drawFrame_error_propagation true endFailBackend ⟨1.0⟩ "end failed").2 rfl rfl⟩

/-- C4 fails on the code: with an all-succeeding backend, a second
BeginFrame with no intervening EndFrame succeeds exactly like the first.
No LifecycleError exists anywhere in the package - the renderer keeps no
frame lifecycle state. -/
theorem C4_counterexample :
    (runCalls vnewOk okState [RCall.rBeginFrame 1.0, RCall.rBeginFrame 1.0]).2.1
      = [Outcome.ok none, Outcome.ok none] := by decide

/-- C4 amended: BeginFrame performs no lifecycle check. It returns the
backend result unchanged and leaves the package state unchanged, so a
second BeginFrame without an intervening EndFrame succeeds whenever the
backend succeeds, regardless of nesting. -/
theorem C4_amended_no_lifecycle_check (d : Bool) (b : RendererBackend) (dt dt2 : Float) :
    BeginFrame ⟨d, some ⟨b⟩⟩ dt
      = (⟨d, some ⟨b⟩⟩, Outcome.ok (b.beginFrameRes dt), [REvent.beBeginFrame dt])
    ∧ (runCalls (fun _ => b) ⟨d, some ⟨b⟩⟩ [RCall.rBeginFrame dt, RCall.rBeginFrame dt2]).2.1
      = [Outcome.ok (b.beginFrameRes dt), Outcome.ok (b.beginFrameRes dt2)] :=
  ⟨rfl, rfl⟩

/-- C1 fails on the code: a packet with one view submitted through
DrawFrame produces no view OnRender invocation at all - DrawFrame only
brackets the frame with one backend BeginFrame and one backend EndFrame
- so the view is not rendered exactly once as claimed. -/
theorem C1_counterexample :
    oneViewPacket.Views.length = 1
    ∧ countViewOnRender (submitPacket okState oneViewPacket).2.2 = 0
    ∧ countBeBeginFrame (submitPacket okState oneViewPacket).2.2 = 1
    ∧ countBeEndFrame (submitPacket okState oneViewPacket).2.2 = 1 :=
  ⟨rfl, rfl, rfl, rfl⟩

/-- C1 amended: for every packet, when the backend accepts both frame
calls, DrawFrame calls backend BeginFrame then EndFrame exactly once
each in that order, and it never invokes any view OnRender callback:
the renderer-package RenderPacket carries no views and DrawFrame
iterates none. -/
theorem C1_amended_drawFrame_brackets_only (d : Bool) (b : RendererBackend)
    (p : RenderPacket) :
    (b.beginFrameRes p.DeltaTime = none → b.endFrameRes p.DeltaTime = none →
      DrawFrame ⟨d, some ⟨b⟩⟩ p
        = (⟨d, some ⟨b⟩⟩, Outcome.ok none,
            [REvent.beBeginFrame p.DeltaTime, REvent.beEndFrame p.DeltaTime]))
    ∧ countViewOnRender (DrawFrame ⟨d, some ⟨b⟩⟩ p).2.2 = 0 := by
  constructor
  · intro hb he
    simp [DrawFrame, BeginFrame, EndFrame, hb, he]
  · cases hb : b.beginFrameRes p.DeltaTime with
    | some e =>
        simp [DrawFrame, BeginFrame, hb, countViewOnRender, isViewOnRender]
    | none =>
        cases he : b.endFrameRes p.DeltaTime with
        | some e =>
            simp [DrawFrame, BeginFrame, EndFrame, hb, he, countViewOnRender, isViewOnRender]
        | none =>
            simp [DrawFrame, BeginFrame, EndFrame, hb, he, countViewOnRender, isViewOnRender]

/-- Witness for C1 amended at the all-succeeding backend. -/
theorem C1_amended_witness :
    DrawFrame okState ⟨1.0⟩
      = (okState, Outcome.ok none, [REvent.beBeginFrame 1.0, REvent.beEndFrame 1.0]) :=
  (C1_amended_drawFrame_brackets_only true okBackend ⟨1.0⟩).1 rfl rfl

/-- C5 fails on the code: two sequential Initialize calls perform two
backend Initialize invocations - the second call is neither a no-op nor
an error; only the construction by vulkan.New is guarded by the once. -/
theorem C5_counterexample :
    countBeInit (runCalls vnewOk initialPkgState
        [RCall.rInit "app" ⟨7⟩, RCall.rInit "app" ⟨7⟩]).2.2 = 2
    ∧ (runCalls vnewOk initialPkgState
        [RCall.rInit "app" ⟨7⟩, RCall.rInit "app" ⟨7⟩]).2.1
      = [Outcome.ok none, Outcome.ok none] := by
  constructor <;> decide

/-- C5 amended: once the first call has run, no further backend is
constructed (the trace of a later call holds no vkNew event), but every
later Initialize call still re-invokes the backend Initialize exactly
once and returns its result; and when the backend Initialize fails on
the first call, the error is surfaced with no retry while the singleton
stays constructed. -/
theorem C5_amended_reinit_behaviour (vulkanNew : Platform → RendererBackend)
    (b : RendererBackend) (app : String) (plat : Platform) (e : String) :
    (Initialize vulkanNew app plat ⟨true, some ⟨b⟩⟩
      = (⟨true, some ⟨b⟩⟩, Outcome.ok (b.initializeRes app), [REvent.beInit app]))
    ∧ (b.initializeRes app = some e →
      Initialize (fun _ => b) app plat initialPkgState
        = (⟨true, some ⟨b⟩⟩, Outcome.ok (some e),
            [REvent.vkNew plat.id, REvent.beInit app])) := by
  constructor
  · rfl
  · intro hb
    simp [Initialize, initialPkgState, hb]

/-- Witness for C5 amended at a backend whose Initialize fails. -/
theorem C5_amended_witness :
    Initialize (fun _ => initFailBackend) "app" ⟨7⟩ initialPkgState
      = (⟨true, some ⟨initFailBackend⟩⟩, Outcome.ok (some "backend init failed"),
          [REvent.vkNew 7, REvent.beInit "app"]) :=
  (C5_amended_reinit_behaviour (fun _ => initFailBackend) initFailBackend
    "app" ⟨7⟩ "backend init failed").2 rfl

/-- C6 fails on the code: OnResize 800 600 calls backend Resized exactly
once, but invokes no view OnResize whatsoever - the renderer keeps no
view collection - so with one active view the claimed per-view resize
notification never happens. -/
theorem C6_counterexample :
    [aWorldView].length = 1
    ∧ (OnResize okState 800 600).2.2 = [REvent.beResized 800 600]
    ∧ countViewOnResize (OnResize okState 800 600).2.2 = 0 :=
  ⟨rfl, rfl, rfl⟩

/-- C6 amended: OnResize forwards the dimensions to backend Resized
exactly once and returns its result; no view OnResize is invoked and
the package state is unchanged. -/
theorem C6_amended_resize_backend_only (d : Bool) (b : RendererBackend) (w h : Nat) :
    OnResize ⟨d, some ⟨b⟩⟩ w h
      = (⟨d, some ⟨b⟩⟩, Outcome.ok (b.resizedRes w h), [REvent.beResized w h])
    ∧ countBeResized (OnResize ⟨d, some ⟨b⟩⟩ w h).2.2 = 1
    ∧ countViewOnResize (OnResize ⟨d, some ⟨b⟩⟩ w h).2.2 = 0 :=
  ⟨rfl, rfl, rfl⟩

/-- C8 fails on the code: Shutdown is not idempotent in effect - a
second Shutdown performs a second backend Shutdow call - and no view
destruction exists at all. -/
theorem C8_counterexample :
    (runCalls vnewOk okState [RCall.rShutdown, RCall.rShutdown]).2.2
      = [REvent.beShutdow, REvent.beShutdow]
    ∧ countBeShutdow (runCalls vnewOk okState [RCall.rShutdown, RCall.rShutdown]).2.2 = 2 :=
  ⟨rfl, rfl⟩

/-- C8 amended: every Shutdown call on a constructed renderer forwards
to backend Shutdow once, returns its result, changes no package state
and destroys no views; hence a repeated Shutdown repeats the backend
shutdown call rather than being a no-op. -/
theorem C8_amended_shutdown_forwards (d : Bool) (b : RendererBackend) :
    Shutdown ⟨d, some ⟨b⟩⟩ = (⟨d, some ⟨b⟩⟩, Outcome.ok b.shutdowRes, [REvent.beShutdow])
    ∧ (runCalls (fun _ => b) ⟨d, some ⟨b⟩⟩ [RCall.rShutdown, RCall.rShutdown]).2.2
      = [REvent.beShutdow, REvent.beShutdow] :=
  ⟨rfl, rfl⟩

/-- C10: after any first Initialize call the platform argument of every
later call is ignored - a later call with one platform is equal, as
state, result and trace, to the same call with any other platform, and
every subsequent call sequence behaves identically on the resulting
states. -/
theorem C10_platform_ignored_after_first (vulkanNew : Platform → RendererBackend)
    (app app2 : String) (p0 q1 q2 : Platform) (s0 : PkgState) (calls : List RCall) :
    Initialize vulkanNew app2 q1 (Initialize vulkanNew app p0 s0).1
      = Initialize vulkanNew app2 q2 (Initialize vulkanNew app p0 s0).1
    ∧ runCalls vulkanNew
        (Initialize vulkanNew app2 q1 (Initialize vulkanNew app p0 s0).1).1 calls
      = runCalls vulkanNew
        (Initialize vulkanNew app2 q2 (Initialize vulkanNew app p0 s0).1).1 calls := by
  have h1 : ((Initialize vulkanNew app p0 s0).1).onceDone = true := by
    rcases s0 with ⟨d, r⟩
    cases d <;> cases r <;> rfl
  have h2 : ∀ (a : String) (r1 r2 : Platform) (s : PkgState), s.onceDone = true →
      Initialize vulkanNew a r1 s = Initialize vulkanNew a r2 s := by
    intro a r1 r2 s hs
    rcases s with ⟨d, r⟩
    cases d
    · simp at hs
    · cases r <;> rfl
  have he := h2 app2 q1 q2 _ h1
  exact ⟨he, by rw [he]⟩

end Alaska

namespace Alaska.OnceModel

/-- The start state of the once model satisfies the invariant. -/
theorem concInv_init (n : Nat) : concInv (initConc n) := by
  refine ⟨Nat.zero_le 1, ?_, fun _ => ⟨rfl, rfl⟩, ?_⟩
  · simp [initConc, concInv]
  · intro pc hpc hne
    exact absurd (List.eq_of_mem_replicate hpc) hne

/-- One scheduler step preserves the invariant. -/
theorem concInv_step (s : ConcState) (tid : Nat) (h : concInv s) :
    concInv (concStep s tid) := by
  obtain ⟨h1, h2, h3, h4⟩ := h
  cases hg : s.pcs[tid]? with
  | none =>
      have hs : concStep s tid = s := by
        simp [concStep, hg]
      rw [hs]
      exact ⟨h1, h2, h3, h4⟩
  | some pc =>
      cases pc with
      | beforeDo =>
          cases hd : s.onceDone with
          | true =>
              have hs : concStep s tid = { s with pcs := s.pcs.set tid ThreadPC.afterDo } := by
                simp [concStep, hg, hd]
              rw [hs]
              exact ⟨h1, h2, h3, fun q hq hne => hd⟩
          | false =>
              have h30 := h3 (by simp [hd])
              have hs : concStep s tid
                  = ⟨true, s.constructs + 1, some (s.constructs + 1),
                      s.pcs.set tid ThreadPC.afterDo⟩ := by
                simp [concStep, hg, hd]
              rw [hs]
              refine ⟨?_, ?_, ?_, ?_⟩
              · simp [h30.1]
              · simp [h30.1]
              · intro hfalse
                exact absurd rfl hfalse
              · intro q hq hne
                rfl
      | afterDo =>
          have hmem : ThreadPC.afterDo ∈ s.pcs := by
            have := List.getElem?_eq_some_iff.mp hg
            obtain ⟨hlt, hget⟩ := this
            exact hget ▸ List.getElem_mem hlt
          have hdone : s.onceDone = true :=
            h4 ThreadPC.afterDo hmem (by decide)
          have hs : concStep s tid = { s with pcs := s.pcs.set tid ThreadPC.finished } := by
            simp [concStep, hg]
          rw [hs]
          exact ⟨h1, h2, h3, fun q hq hne => hdone⟩
      | finished =>
          have hs : concStep s tid = s := by
            simp [concStep, hg]
          rw [hs]
          exact ⟨h1, h2, h3, h4⟩

/-- The invariant holds after every schedule. -/
theorem concInv_run (n : Nat) (sched : List Nat) : concInv (concRun n sched) := by
  suffices hgen : ∀ (l : List Nat) (s : ConcState), concInv s → concInv (l.foldl concStep s) by
    exact hgen sched (initConc n) (concInv_init n)
  intro l
  induction l with
  | nil => intro s hs; exact hs
  | cons t ts ih => intro s hs; exact ih (concStep s t) (concInv_step s t hs)

/-- C2: in the concurrent-initialization model, for every number of
goroutines and every interleaving, at most one backend construction ever
happens; the stored singleton is only ever the first constructed
instance; and every caller that has returned from the once barrier
observes exactly one completed construction and that same single
instance - never a second backend, never a partially constructed one. -/
theorem C2_once_single_construction (n : Nat) (sched : List Nat) :
    (concRun n sched).constructs ≤ 1
    ∧ ((concRun n sched).rendererInst = none ∨ (concRun n sched).rendererInst = some 1)
    ∧ (∀ pc ∈ (concRun n sched).pcs, pc ≠ ThreadPC.beforeDo →
        (concRun n sched).constructs = 1 ∧ (concRun n sched).rendererInst = some 1) := by
  obtain ⟨h1, h2, h3, h4⟩ := concInv_run n sched
  refine ⟨h1, ?_, ?_⟩
  · by_cases hd : (concRun n sched).onceDone
    · exact Or.inr (h2.mp hd).2
    · exact Or.inl (h3 hd).2
  · intro pc hpc hne
    exact h2.mp (h4 pc hpc hne)

/-- Witness for C2: two goroutines interleaved, both past the barrier,
observe the single instance 1. -/
theorem C2_once_witness :
    (concRun 2 [0, 1, 0, 1]).constructs = 1
    ∧ (concRun 2 [0, 1, 0, 1]).rendererInst = some 1 :=
  (C2_once_single_construction 2 [0, 1, 0, 1]).2.2 ThreadPC.finished
    (by decide) (by decide)

end Alaska.OnceModel
